import Mathlib

/-!
Shallow embedding of `src/torchmetrics/functional/text/infolm.py` (the InfoLM
information-measure engine) and proofs about it.

Modelling conventions:
  * Python numbers passed as `alpha` / `beta` are modelled by `PyNum`:
    a Python `int` is an integer, a Python `float` is modelled by a rational
    number (every concrete value appearing in the checks and claims is exactly
    representable, and the `==` / `in` checks of the source are exact value
    comparisons).  `None` is modelled by `Option.none`.
  * Tensors of shape `[batch, vocab]` are modelled as `Fin b → Fin n → ℝ`
    and per-sentence results as `Fin b → ℝ`.  Tensor arithmetic over IEEE
    floats is modelled over `ℝ`; the one place where the source produces a
    NaN from a `0 / 0` float division (the per-sentence aggregation with an
    all-false token mask) is modelled by `Option`, with `none` standing for
    the non-finite row.
  * `str.lower()` is modelled by `strLower` (character-wise lowering), and
    Python `dir(cls)` by the alphabetically sorted list of enum member names.
-/

/-- Model of Python `str.lower()` (character-wise ASCII lowering). -/
def strLower (s : String) : String := ⟨s.data.map Char.toLower⟩

/-- A Python number argument: an `int` or a `float` (floats modelled as `ℚ`). -/
inductive PyNum where
  | int (k : ℤ)
  | float (q : ℚ)
deriving DecidableEq, Repr

/-- Model of Python `isinstance(x, float)` on an optional argument:
`None` and `int` values are not `float` instances. -/
def isFloat : Option PyNum → Bool
  | some (.float _) => true
  | _ => false

/-- Model of the Python value equality `x == m` between an optional
number `x` and an integer literal `m` (so `0.0 == 0` is `true`,
`None == 0` is `false`), as used by the `in [...]` membership checks
of `_InformationMeasure.__init__`. -/
def optNumIs : Option PyNum → ℤ → Bool
  | some (.int k), m => decide (k = m)
  | some (.float q), m => decide (q = (m : ℚ))
  | none, _ => false

/-- Model of Python `+` on the optional numeric arguments (`alpha + beta`).
The `none` cases model a Python `TypeError` and are unreachable where the
source evaluates the sum (both operands are guaranteed floats there). -/
def pyAdd : Option PyNum → Option PyNum → Option PyNum
  | some (.int a), some (.int b) => some (.int (a + b))
  | some (.int a), some (.float b) => some (.float ((a : ℚ) + b))
  | some (.float a), some (.int b) => some (.float (a + (b : ℚ)))
  | some (.float a), some (.float b) => some (.float (a + b))
  | _, _ => none

/-- The `_IMEnum` helper enum of the source: the nine information measures. -/
inductive _IMEnum where
  | KL_DIVERGENCE
  | ALPHA_DIVERGENCE
  | BETA_DIVERGENCE
  | AB_DIVERGENCE
  | RENYI_DIVERGENCE
  | L1_DISTANCE
  | L2_DISTANCE
  | L_INFINITY_DISTANCE
  | FISHER_RAO_DISTANCE
deriving DecidableEq, Repr

/-- The string value assigned to each `_IMEnum` member in the source. -/
def _IMEnum.value : _IMEnum → String
  | .KL_DIVERGENCE => ("kl_divergence")
  | .ALPHA_DIVERGENCE => ("alpha_divergence")
  | .BETA_DIVERGENCE => ("beta_divergence")
  | .AB_DIVERGENCE => ("ab_divergence")
  | .RENYI_DIVERGENCE => ("renyi_divergence")
  | .L1_DISTANCE => ("l1_distance")
  | .L2_DISTANCE => ("l2_distance")
  | .L_INFINITY_DISTANCE => ("l_infinity_distance")
  | .FISHER_RAO_DISTANCE => ("fisher_rao_distance")

/-- The member names of `_IMEnum` paired with the members, in the order
produced by Python `dir(cls)` (alphabetically sorted attribute names; on the
Python versions targeted by the source, `dir` on an `Enum` class lists
exactly the member names besides underscore-prefixed entries, which the
source filters out). -/
def _IMEnum.dir : List (String × _IMEnum) :=
  [(("AB_DIVERGENCE"), .AB_DIVERGENCE),
   (("ALPHA_DIVERGENCE"), .ALPHA_DIVERGENCE),
   (("BETA_DIVERGENCE"), .BETA_DIVERGENCE),
   (("FISHER_RAO_DISTANCE"), .FISHER_RAO_DISTANCE),
   (("KL_DIVERGENCE"), .KL_DIVERGENCE),
   (("L1_DISTANCE"), .L1_DISTANCE),
   (("L2_DISTANCE"), .L2_DISTANCE),
   (("L_INFINITY_DISTANCE"), .L_INFINITY_DISTANCE),
   (("RENYI_DIVERGENCE"), .RENYI_DIVERGENCE)]

/-- The loop body of `_IMEnum.from_str`: scan the member names, returning the
first member whose lowered name equals the lowered query. -/
def lookup_member : List (String × _IMEnum) → String → Option _IMEnum
  | [], _ => none
  | p :: rest, value =>
      if strLower p.1 = strLower value then some p.2 else lookup_member rest value

/-- `_IMEnum.from_str` of the source: case-insensitive lookup of the measure
name, raising `ValueError` (modelled as `Except.error`) when no member name
matches. -/
def _IMEnum.from_str (value : String) : Except String _IMEnum :=
  match lookup_member _IMEnum.dir value with
  | some m => .ok m
  | none => .error ("Invalid information measure got. Please use one of the allowed information measures.")

/-- The `_InformationMeasure` wrapper class state: the selected measure and
the stored `alpha` and `beta` parameters. -/
structure _InformationMeasure where
  information_measure : _IMEnum
  alpha : Option PyNum
  beta : Option PyNum
deriving DecidableEq, Repr

/-- `_InformationMeasure.__init__` of the source: resolve the measure name,
run the parameter validation checks in source order (each `raise ValueError`
modelled as `Except.error`), and store `alpha` and `beta`.
Note: exactly as in the source, the beta-divergence check at line 123
inspects `alpha`, not `beta`. -/
def _InformationMeasure.init (information_measure : String)
    (alpha beta : Option PyNum) : Except String _InformationMeasure :=
  match _IMEnum.from_str information_measure with
  | .error e => .error e
  | .ok im =>
    if (im = .ALPHA_DIVERGENCE ∨ im = .AB_DIVERGENCE ∨ im = .RENYI_DIVERGENCE)
        ∧ isFloat alpha = false then
      .error (("Parameter alpha is expected to be defined for ") ++ information_measure)
    else if (im = .BETA_DIVERGENCE ∨ im = .AB_DIVERGENCE) ∧ isFloat beta = false then
      .error (("Parameter beta is expected to be defined for ") ++ information_measure)
    else if im = .ALPHA_DIVERGENCE ∧ (optNumIs alpha 0 = true ∨ optNumIs alpha 1 = true) then
      .error (("Parameter alpha is expected to be differened from 0 and 1 for ") ++ information_measure)
    else if im = .BETA_DIVERGENCE ∧ (optNumIs alpha 0 = true ∨ optNumIs alpha (-1) = true) then
      .error (("Parameter beta is expected to be differened from 0 and -1 for ") ++ information_measure)
    else if im = .AB_DIVERGENCE
        ∧ (optNumIs alpha 0 = true ∨ optNumIs beta 0 = true ∨ optNumIs (pyAdd alpha beta) 0 = true) then
      .error (("Parameters alpha, beta and their sum are expected to be differened from 0 for ") ++ information_measure)
    else if im = .RENYI_DIVERGENCE ∧ optNumIs alpha 1 = true then
      .error (("Parameter alpha is expected to be differened from 1 for ") ++ information_measure)
    else
      .ok ⟨im, alpha, beta⟩

theorem strLower_AB : strLower ("AB_DIVERGENCE") = ("ab_divergence") := rfl

theorem strLower_ALPHA : strLower ("ALPHA_DIVERGENCE") = ("alpha_divergence") := rfl

theorem strLower_BETA : strLower ("BETA_DIVERGENCE") = ("beta_divergence") := rfl

theorem strLower_FISHER : strLower ("FISHER_RAO_DISTANCE") = ("fisher_rao_distance") := rfl

theorem strLower_KL : strLower ("KL_DIVERGENCE") = ("kl_divergence") := rfl

theorem strLower_L1 : strLower ("L1_DISTANCE") = ("l1_distance") := rfl

theorem strLower_L2 : strLower ("L2_DISTANCE") = ("l2_distance") := rfl

theorem strLower_LINF : strLower ("L_INFINITY_DISTANCE") = ("l_infinity_distance") := rfl

theorem strLower_RENYI : strLower ("RENYI_DIVERGENCE") = ("renyi_divergence") := rfl

theorem from_str_alpha_div : _IMEnum.from_str ("alpha_divergence") = .ok .ALPHA_DIVERGENCE := rfl

theorem from_str_beta_div : _IMEnum.from_str ("beta_divergence") = .ok .BETA_DIVERGENCE := rfl

theorem from_str_ab_div : _IMEnum.from_str ("ab_divergence") = .ok .AB_DIVERGENCE := rfl

theorem from_str_renyi_div : _IMEnum.from_str ("renyi_divergence") = .ok .RENYI_DIVERGENCE := rfl

/-- `_calculate_kl_divergence`: `torch.sum(preds * log(preds / target), dim=-1)`. -/
noncomputable def _calculate_kl_divergence {b n : ℕ}
    (preds_distribution target_distribution : Fin b → Fin n → ℝ) : Fin b → ℝ :=
  fun j => ∑ i, preds_distribution j i * Real.log (preds_distribution j i / target_distribution j i)

/-- `_calculate_alpha_divergence`:
`(1 - sum(target ** alpha * preds ** (1 - alpha), dim=-1)) / (alpha * (alpha - 1))`. -/
noncomputable def _calculate_alpha_divergence {b n : ℕ} (alpha : ℝ)
    (preds_distribution target_distribution : Fin b → Fin n → ℝ) : Fin b → ℝ :=
  fun j =>
    (1 - ∑ i, target_distribution j i ^ alpha * preds_distribution j i ^ (1 - alpha))
      / (alpha * (alpha - 1))

/-- `_calculate_ab_divergence`:
`x / (beta * (beta + alpha)) + y / (beta + alpha) - z / (alpha * beta)` with
`x = log(sum(target ** (beta + alpha)))`, `y = log(sum(preds ** (beta + alpha)))`,
`z = log(sum(target ** alpha * preds ** beta))`. -/
noncomputable def _calculate_ab_divergence {b n : ℕ} (alpha beta : ℝ)
    (preds_distribution target_distribution : Fin b → Fin n → ℝ) : Fin b → ℝ :=
  fun j =>
    Real.log (∑ i, target_distribution j i ^ (beta + alpha)) / (beta * (beta + alpha))
      + Real.log (∑ i, preds_distribution j i ^ (beta + alpha)) / (beta + alpha)
      - Real.log (∑ i, target_distribution j i ^ alpha * preds_distribution j i ^ beta)
          / (alpha * beta)

/-- `_calculate_renyi_divergence`:
`log(sum(target ** alpha * preds ** (1 - alpha), dim=-1)) / (alpha - 1)`. -/
noncomputable def _calculate_renyi_divergence {b n : ℕ} (alpha : ℝ)
    (preds_distribution target_distribution : Fin b → Fin n → ℝ) : Fin b → ℝ :=
  fun j =>
    Real.log (∑ i, target_distribution j i ^ alpha * preds_distribution j i ^ (1 - alpha))
      / (alpha - 1)

/-- `_calculate_l1_distance`: `torch.norm(target - preds, p=1, dim=-1)`. -/
noncomputable def _calculate_l1_distance {b n : ℕ}
    (preds_distribution target_distribution : Fin b → Fin n → ℝ) : Fin b → ℝ :=
  fun j => ∑ i, |target_distribution j i - preds_distribution j i|

/-- `_calculate_l2_distance`: `torch.norm(target - preds, p=2, dim=-1)`. -/
noncomputable def _calculate_l2_distance {b n : ℕ}
    (preds_distribution target_distribution : Fin b → Fin n → ℝ) : Fin b → ℝ :=
  fun j => Real.sqrt (∑ i, (target_distribution j i - preds_distribution j i) ^ (2 : ℕ))

/-- `_calculate_l_infinity_distance`: `torch.norm(target - preds, p=inf, dim=-1)`,
the maximum absolute difference over the vocabulary axis. -/
noncomputable def _calculate_l_infinity_distance {b n : ℕ}
    (preds_distribution target_distribution : Fin b → Fin n → ℝ) : Fin b → ℝ :=
  fun j => ⨆ i, |target_distribution j i - preds_distribution j i|

/-- `_calculate_fisher_rao_distance`:
`2 * acos(clamp(sqrt(preds * target).sum(-1), 0, 1))`, where
`torch.clamp(x, 0, 1) = min (max x 0) 1`. -/
noncomputable def _calculate_fisher_rao_distance {b n : ℕ}
    (preds_distribution target_distribution : Fin b → Fin n → ℝ) : Fin b → ℝ :=
  fun j =>
    2 * Real.arccos
      (min (max (∑ i, Real.sqrt (preds_distribution j i * target_distribution j i)) 0) 1)

/-- Reading a stored parameter as the real number used by the formulas.
Validation guarantees the parameter is a float wherever a formula uses it
(for beta divergence, `alpha` is overwritten with `1.0` before use), so the
`none` fallback value is never reached by a validly constructed measure. -/
noncomputable def pyGetReal : Option PyNum → ℝ
  | some (.int k) => (k : ℝ)
  | some (.float q) => (q : ℝ)
  | none => 0

/-- `_InformationMeasure.__call__`: dispatch on the stored measure and return
the per-sentence results together with the (possibly updated) object state.
As in the source, `_calculate_beta_divergence` first executes
`self.alpha = 1.0` and then delegates to `_calculate_ab_divergence`, so the
beta-divergence branch returns an updated state whose `alpha` is `1.0`. -/
noncomputable def _InformationMeasure.call {b n : ℕ} (s : _InformationMeasure)
    (preds_distribution target_distribution : Fin b → Fin n → ℝ) :
    (Fin b → ℝ) × _InformationMeasure :=
  match s.information_measure with
  | .KL_DIVERGENCE =>
      (_calculate_kl_divergence preds_distribution target_distribution, s)
  | .ALPHA_DIVERGENCE =>
      (_calculate_alpha_divergence (pyGetReal s.alpha) preds_distribution target_distribution, s)
  | .AB_DIVERGENCE =>
      (_calculate_ab_divergence (pyGetReal s.alpha) (pyGetReal s.beta)
        preds_distribution target_distribution, s)
  | .BETA_DIVERGENCE =>
      let s2 := { s with alpha := some (.float 1) }
      (_calculate_ab_divergence (pyGetReal s2.alpha) (pyGetReal s2.beta)
        preds_distribution target_distribution, s2)
  | .RENYI_DIVERGENCE =>
      (_calculate_renyi_divergence (pyGetReal s.alpha) preds_distribution target_distribution, s)
  | .L1_DISTANCE =>
      (_calculate_l1_distance preds_distribution target_distribution, s)
  | .L2_DISTANCE =>
      (_calculate_l2_distance preds_distribution target_distribution, s)
  | .L_INFINITY_DISTANCE =>
      (_calculate_l_infinity_distance preds_distribution target_distribution, s)
  | .FISHER_RAO_DISTANCE =>
      (_calculate_fisher_rao_distance preds_distribution target_distribution, s)

/-- `_get_token_mask` of the source:
`input_ids.eq(pad) | input_ids.eq(sep) | input_ids.eq(cls)` (no negation). -/
def _get_token_mask {b L : ℕ} (input_ids : Fin b → Fin L → ℤ)
    (pad_token_id sep_token_id cls_token_id : ℤ) : Fin b → Fin L → Bool :=
  fun j i =>
    decide (input_ids j i = pad_token_id) || decide (input_ids j i = sep_token_id)
      || decide (input_ids j i = cls_token_id)

/-- `token_mask.sum(dim=1)` for one sentence: the number of `true` positions. -/
def maskSum {L : ℕ} (m : Fin L → Bool) : ℕ := ∑ i, (if m i then 1 else 0)

/-- The final aggregation step of `_get_batch_distribution` (source lines
395-397): multiply each per-position distribution by the mask value, sum over
positions and divide by the mask count.  When a sentence's mask count is zero
the float division `0 / 0` of the source yields NaN; that non-finite row is
modelled by `none`. -/
noncomputable def aggregate_distribution {b L V : ℕ}
    (prob_distribution_batch : Fin b → Fin L → Fin V → ℝ)
    (token_mask : Fin b → Fin L → Bool) : Fin b → Option (Fin V → ℝ) :=
  fun j =>
    if maskSum (token_mask j) = 0 then none
    else some (fun v =>
      (∑ i, (if token_mask j i then (1 : ℝ) else 0) * prob_distribution_batch j i v)
        / (maskSum (token_mask j) : ℝ))

/-- The special-token ids supplied by the tokenizer (`_get_special_tokens_map`). -/
structure SpecialTokensMap where
  mask_token_id : ℤ
  pad_token_id : ℤ
  sep_token_id : ℤ
  cls_token_id : ℤ

/-- Temperature-scaled softmax, `F.softmax(logits / temperature, dim=-1)`. -/
noncomputable def softmaxT {V : ℕ} (temperature : ℝ) (logits : Fin V → ℝ) : Fin V → ℝ :=
  fun v => Real.exp (logits v / temperature) / ∑ w, Real.exp (logits w / temperature)

/-- `_get_batch_distribution` of the source, with the external masked language
model abstracted as a function from an input-id batch to per-position logits:
for each position, mask that column, query the model, softmax the logits at
the masked position with temperature scaling, then aggregate with the token
mask built by `_get_token_mask`. -/
noncomputable def _get_batch_distribution {b L V : ℕ}
    (model : (Fin b → Fin L → ℤ) → Fin b → Fin L → Fin V → ℝ)
    (input_ids : Fin b → Fin L → ℤ) (temperature : ℝ)
    (special_tokens_map : SpecialTokensMap) : Fin b → Option (Fin V → ℝ) :=
  let token_mask := _get_token_mask input_ids special_tokens_map.pad_token_id
    special_tokens_map.sep_token_id special_tokens_map.cls_token_id
  let prob_distribution_batch : Fin b → Fin L → Fin V → ℝ := fun j i =>
    softmaxT temperature
      (model (fun j2 i2 => if i2 = i then special_tokens_map.mask_token_id else input_ids j2 i2) j i)
  aggregate_distribution prob_distribution_batch token_mask

/-- C1: the claim states the token mask is true exactly at positions whose
input id is NOT the pad, sep or cls id.  Evaluating `_get_token_mask` at a
batch whose single position holds id 5 (distinct from pad = 0, sep = 1,
cls = 2) yields `false` there: the source builds the mask without the
negation, so it is true exactly at the special-token positions, the opposite
polarity, and `_get_batch_distribution` consequently averages over
special-token positions rather than content positions. -/
theorem C1_token_mask_polarity :
    ((5 : ℤ) ≠ 0 ∧ (5 : ℤ) ≠ 1 ∧ (5 : ℤ) ≠ 2) ∧
    _get_token_mask (fun (_ : Fin 1) (_ : Fin 1) => (5 : ℤ)) 0 1 2 0 0 = false ∧
    _get_token_mask (fun (_ : Fin 1) (_ : Fin 1) => (0 : ℤ)) 0 1 2 0 0 = true := by
  refine ⟨⟨by decide, by decide, by decide⟩, rfl, rfl⟩

/-- C2: the claim states construction with kind beta_divergence and float
beta equal to 0 or to -1 fails, and with float beta outside those two values
(any alpha) succeeds.  Evaluating the source constructor shows both parts fail: with
`beta = 0.0` (and `alpha = None`) construction succeeds, because the check at
line 123 inspects `alpha` instead of `beta`; and with `alpha = 0.0` and the
admissible `beta = 5.0` construction is rejected by that same check. -/
theorem C2_beta_check_inspects_alpha :
    (∃ s, _InformationMeasure.init ("beta_divergence") none (some (.float 0)) = .ok s
        ∧ s.beta = some (.float 0)) ∧
    (∃ e, _InformationMeasure.init ("beta_divergence") (some (.float 0)) (some (.float 5))
        = .error e) := by
  exact ⟨⟨_, rfl, rfl⟩, ⟨_, rfl⟩⟩

/-- C10: the required-parameter checks use `isinstance(x, float)`, so passing
an integer for `alpha` (for alpha, AB and Renyi divergence) or for `beta`
(for beta and AB divergence) is rejected at construction with exactly the
same missing-parameter error as passing `None`. -/
theorem C10_int_rejected_like_none :
    ∀ (k : ℤ) (a bv : Option PyNum),
    (_InformationMeasure.init ("alpha_divergence") (some (.int k)) bv
        = _InformationMeasure.init ("alpha_divergence") none bv
      ∧ ∃ e, _InformationMeasure.init ("alpha_divergence") (some (.int k)) bv = .error e)
    ∧ (_InformationMeasure.init ("renyi_divergence") (some (.int k)) bv
        = _InformationMeasure.init ("renyi_divergence") none bv
      ∧ ∃ e, _InformationMeasure.init ("renyi_divergence") (some (.int k)) bv = .error e)
    ∧ (_InformationMeasure.init ("ab_divergence") (some (.int k)) bv
        = _InformationMeasure.init ("ab_divergence") none bv
      ∧ ∃ e, _InformationMeasure.init ("ab_divergence") (some (.int k)) bv = .error e)
    ∧ (_InformationMeasure.init ("beta_divergence") a (some (.int k))
        = _InformationMeasure.init ("beta_divergence") a none
      ∧ ∃ e, _InformationMeasure.init ("beta_divergence") a (some (.int k)) = .error e)
    ∧ (_InformationMeasure.init ("ab_divergence") a (some (.int k))
        = _InformationMeasure.init ("ab_divergence") a none
      ∧ ∃ e, _InformationMeasure.init ("ab_divergence") a (some (.int k)) = .error e) := by
  intro k a bv
  refine ⟨⟨rfl, _, rfl⟩, ⟨rfl, _, rfl⟩, ⟨rfl, _, rfl⟩, ⟨rfl, _, rfl⟩, ?_⟩
  rcases a with _ | pn
  · exact ⟨rfl, _, rfl⟩
  · rcases pn with k2 | q
    · exact ⟨rfl, _, rfl⟩
    · exact ⟨rfl, _, rfl⟩

/-- C10 witness: passing the integer 2 for alpha to alpha_divergence is
rejected with exactly the same error as passing None. -/
theorem C10_int_rejected_like_none_witness :
    _InformationMeasure.init ("alpha_divergence") (some (.int 2)) none
        = _InformationMeasure.init ("alpha_divergence") none none
    ∧ ∃ e, _InformationMeasure.init ("alpha_divergence") (some (.int 2)) none = .error e :=
  (C10_int_rejected_like_none 2 none none).1

/-- C5: constructing with kind ab_divergence and float alpha, beta succeeds
exactly when none of alpha, beta, alpha + beta equals 0; each violation is
rejected at construction with an invalid-parameter error. -/
theorem C5_ab_divergence_validation (a bq : ℚ) :
    (∃ s, _InformationMeasure.init ("ab_divergence") (some (.float a)) (some (.float bq))
        = .ok s)
    ↔ (a ≠ 0 ∧ bq ≠ 0 ∧ a + bq ≠ 0) := by
  simp only [_InformationMeasure.init, from_str_ab_div, isFloat, optNumIs, pyAdd,
    Int.cast_zero, Int.cast_one, decide_eq_true_eq]
  norm_num
  split_ifs <;> simp_all <;> tauto

/-- C5 witness: at alpha = 0.5, beta = -0.5 (where alpha + beta = 0)
construction fails with a configuration error, and at alpha = 2, beta = 3
construction succeeds. -/
theorem C5_ab_divergence_validation_witness :
    (∃ e, _InformationMeasure.init ("ab_divergence") (some (.float (1/2))) (some (.float (-1/2)))
        = .error e)
    ∧ (∃ s, _InformationMeasure.init ("ab_divergence") (some (.float 2)) (some (.float 3))
        = .ok s) := by
  constructor
  · have hno : ¬ ∃ s, _InformationMeasure.init ("ab_divergence")
        (some (.float (1/2))) (some (.float (-1/2))) = .ok s := by
      intro hs
      have h := (C5_ab_divergence_validation (1/2) (-1/2)).mp hs
      exact h.2.2 (by norm_num)
    cases hinit : _InformationMeasure.init ("ab_divergence")
        (some (.float (1/2))) (some (.float (-1/2))) with
    | error e => exact ⟨e, rfl⟩
    | ok s => exact absurd ⟨s, hinit⟩ hno
  · exact (C5_ab_divergence_validation 2 3).mpr (by norm_num)

/-- C6: constructing with kind alpha_divergence and alpha = None fails with a
configuration error; with float alpha, construction succeeds exactly when
alpha is neither 0 nor 1 (so alpha = 0.0 and alpha = 1.0 are rejected). -/
theorem C6_alpha_divergence_validation (a : ℚ) :
    (∃ e, _InformationMeasure.init ("alpha_divergence") none none = .error e)
    ∧ ((∃ s, _InformationMeasure.init ("alpha_divergence") (some (.float a)) none = .ok s)
        ↔ (a ≠ 0 ∧ a ≠ 1)) := by
  constructor
  · exact ⟨_, rfl⟩
  · simp only [_InformationMeasure.init, from_str_alpha_div, isFloat, optNumIs,
      Int.cast_zero, Int.cast_one, decide_eq_true_eq]
    norm_num
    split_ifs <;> simp_all <;> tauto

/-- C6 witness: alpha = None is rejected and float alpha = 2 is accepted for
alpha_divergence. -/
theorem C6_alpha_divergence_validation_witness :
    (∃ e, _InformationMeasure.init ("alpha_divergence") none none = .error e)
    ∧ (∃ s, _InformationMeasure.init ("alpha_divergence") (some (.float 2)) none = .ok s) :=
  ⟨(C6_alpha_divergence_validation 2).1,
   (C6_alpha_divergence_validation 2).2.mpr (by norm_num)⟩

/-- C4: for every string, the case-insensitive measure-name lookup
`_IMEnum.from_str` either succeeds selecting the measure whose name is the
lowered query string, or fails with the unrecognized-measure error, in which
case the lowered query is none of the nine recognized measure names; hence
lookup succeeds exactly on strings that case-insensitively match one of the
nine names, and then selects that measure. -/
theorem C4_from_str_lookup (v : String) :
    (match _IMEnum.from_str v with
     | .ok m => strLower v = _IMEnum.value m
     | .error _ => ∀ m : _IMEnum, strLower v ≠ _IMEnum.value m) := by
  unfold _IMEnum.from_str _IMEnum.dir
  simp only [lookup_member, strLower_AB, strLower_ALPHA, strLower_BETA, strLower_FISHER,
    strLower_KL, strLower_L1, strLower_L2, strLower_LINF, strLower_RENYI]
  split_ifs with h1 h2 h3 h4 h5 h6 h7 h8 h9
  · exact h1.symm
  · exact h2.symm
  · exact h3.symm
  · exact h4.symm
  · exact h5.symm
  · exact h6.symm
  · exact h7.symm
  · exact h8.symm
  · exact h9.symm
  · intro m
    cases m
    exacts [fun hh => h5 hh.symm, fun hh => h2 hh.symm, fun hh => h3 hh.symm,
      fun hh => h1 hh.symm, fun hh => h9 hh.symm, fun hh => h6 hh.symm,
      fun hh => h7 hh.symm, fun hh => h8 hh.symm, fun hh => h4 hh.symm]

/-- C4 witness: the mixed-case string KL_Divergence matches kl_divergence
case-insensitively; the lookup succeeds and selects the KL-divergence
measure. -/
theorem C4_from_str_lookup_witness :
    _IMEnum.from_str ("KL_Divergence") = .ok .KL_DIVERGENCE
    ∧ strLower ("KL_Divergence") = _IMEnum.value .KL_DIVERGENCE := by
  have h := C4_from_str_lookup ("KL_Divergence")
  rw [show _IMEnum.from_str ("KL_Divergence") = .ok .KL_DIVERGENCE from rfl] at h
  exact ⟨rfl, h⟩

/-- A validly constructed beta-divergence measure whose stored alpha is
`None` (the user did not pass alpha), used to exhibit the mutation performed
by `_calculate_beta_divergence`. -/
def betaSpecNoAlpha : _InformationMeasure :=
  ⟨.BETA_DIVERGENCE, none, some (.float 2)⟩

/-- A concrete one-sentence, one-token distribution batch. -/
noncomputable def oneBatch : Fin 1 → Fin 1 → ℝ := fun _ _ => 1

/-- C3 counterexample: the claim states that invoking any validly
constructed measure leaves the stored alpha and beta fields unchanged,
including for beta_divergence.  The beta-divergence spec constructed with
`alpha = None, beta = 2.0` is validly constructed, yet after one invocation
its stored alpha has become `1.0`: the source executes `self.alpha = 1.0`
inside `_calculate_beta_divergence`. -/
theorem C3_beta_divergence_mutates_alpha :
    _InformationMeasure.init ("beta_divergence") none (some (.float 2))
        = .ok betaSpecNoAlpha
    ∧ betaSpecNoAlpha.alpha = none
    ∧ (betaSpecNoAlpha.call oneBatch oneBatch).2.alpha = some (.float 1) := by
  exact ⟨rfl, rfl, rfl⟩

/-- C3 amended: invoking a measure is deterministic and touches no state
other than the beta-divergence alpha overwrite: the returned state equals the
input state except that the beta-divergence branch sets the stored alpha to
`1.0` (beta and the measure kind are always unchanged), and re-invoking on
the returned state yields exactly the same result and state, so repeated
invocations on the same pair of distribution batches give equal results for
every measure kind, including beta_divergence. -/
theorem C3_call_deterministic (b n : ℕ) (s : _InformationMeasure)
    (P Q : Fin b → Fin n → ℝ) :
    (s.call P Q).2 = (if s.information_measure = .BETA_DIVERGENCE
        then { s with alpha := some (.float 1) } else s)
    ∧ (s.call P Q).2.beta = s.beta
    ∧ (s.call P Q).2.information_measure = s.information_measure
    ∧ ((s.call P Q).2).call P Q = s.call P Q := by
  obtain ⟨im, a, bv⟩ := s
  cases im <;> exact ⟨rfl, rfl, rfl, rfl⟩

/-- C3 witness (for the amended claim): on the concrete beta-divergence spec,
invoking leaves beta unchanged and a repeated invocation returns exactly the
same result and state. -/
theorem C3_call_deterministic_witness :
    (betaSpecNoAlpha.call oneBatch oneBatch).2.beta = betaSpecNoAlpha.beta
    ∧ ((betaSpecNoAlpha.call oneBatch oneBatch).2).call oneBatch oneBatch
        = betaSpecNoAlpha.call oneBatch oneBatch := by
  have h := C3_call_deterministic 1 1 betaSpecNoAlpha oneBatch oneBatch
  exact ⟨h.2.1, h.2.2.2⟩

/-- C7: the Fisher-Rao measure computes exactly
`2 * arccos (clamp (sum of sqrt (P * Q)) 0 1)` per sentence, and for valid
probability distributions (non-negative entries summing to 1) every
per-sentence result lies in the interval from 0 to pi. -/
theorem C7_fisher_rao_range (b n : ℕ) (P Q : Fin b → Fin n → ℝ) (j : Fin b) :
    _calculate_fisher_rao_distance P Q j
        = 2 * Real.arccos (min (max (∑ i, Real.sqrt (P j i * Q j i)) 0) 1)
    ∧ ((∀ i, 0 ≤ P j i) → (∑ i, P j i) = 1 → (∀ i, 0 ≤ Q j i) → (∑ i, Q j i) = 1 →
        0 ≤ _calculate_fisher_rao_distance P Q j
        ∧ _calculate_fisher_rao_distance P Q j ≤ Real.pi) := by
  refine ⟨rfl, fun _ _ _ _ => ?_⟩
  unfold _calculate_fisher_rao_distance
  set t : ℝ := min (max (∑ i, Real.sqrt (P j i * Q j i)) 0) 1 with ht
  have ht0 : 0 ≤ t := le_min (le_max_right _ _) zero_le_one
  constructor
  · have harc := Real.arccos_nonneg t
    linarith
  · have harc : Real.arccos t ≤ Real.pi / 2 := Real.arccos_le_pi_div_two.mpr ht0
    linarith

/-- C7 witness: at the one-point distribution the hypotheses hold and the
Fisher-Rao value lies between 0 and pi. -/
theorem C7_fisher_rao_range_witness :
    0 ≤ _calculate_fisher_rao_distance oneBatch oneBatch 0
    ∧ _calculate_fisher_rao_distance oneBatch oneBatch 0 ≤ Real.pi :=
  (C7_fisher_rao_range 1 1 oneBatch oneBatch 0).2
    (fun _ => by norm_num [oneBatch]) (by simp [oneBatch])
    (fun _ => by norm_num [oneBatch]) (by simp [oneBatch])

/-- C8: on an identical pair of valid probability distributions, the L1, L2,
L-infinity and Fisher-Rao distances are exactly 0 per sentence, and for a
strictly positive distribution the KL divergence is exactly 0 per sentence. -/
theorem C8_identity_pair_zero (b n : ℕ) (P : Fin b → Fin n → ℝ)
    (hpos : ∀ j i, 0 ≤ P j i) (hsum : ∀ j, (∑ i, P j i) = 1) (j : Fin b) :
    _calculate_l1_distance P P j = 0
    ∧ _calculate_l2_distance P P j = 0
    ∧ _calculate_l_infinity_distance P P j = 0
    ∧ _calculate_fisher_rao_distance P P j = 0
    ∧ ((∀ i, 0 < P j i) → _calculate_kl_divergence P P j = 0) := by
  have hne : n ≠ 0 := by
    rintro rfl
    have h0 := hsum j
    simp at h0
  haveI : Nonempty (Fin n) := ⟨⟨0, Nat.pos_of_ne_zero hne⟩⟩
  refine ⟨?_, ?_, ?_, ?_, ?_⟩
  · simp [_calculate_l1_distance]
  · simp [_calculate_l2_distance]
  · unfold _calculate_l_infinity_distance
    have hfun : (fun i : Fin n => |P j i - P j i|) = fun _ => (0 : ℝ) := by
      funext i
      simp
    rw [hfun]
    exact ciSup_const
  · unfold _calculate_fisher_rao_distance
    have hsq : (∑ i, Real.sqrt (P j i * P j i)) = ∑ i, P j i := by
      refine Finset.sum_congr rfl fun i _ => Real.sqrt_mul_self (hpos j i)
    rw [hsq, hsum j]
    norm_num [Real.arccos_one]
  · intro hstrict
    unfold _calculate_kl_divergence
    have hterm : ∀ i : Fin n, P j i * Real.log (P j i / P j i) = 0 := by
      intro i
      rw [div_self (ne_of_gt (hstrict i)), Real.log_one, mul_zero]
    simp [hterm]

/-- C8 witness: at the one-point distribution all hypotheses hold and all
five measures evaluate to 0 on the identical pair. -/
theorem C8_identity_pair_zero_witness :
    _calculate_l1_distance oneBatch oneBatch 0 = 0
    ∧ _calculate_l2_distance oneBatch oneBatch 0 = 0
    ∧ _calculate_l_infinity_distance oneBatch oneBatch 0 = 0
    ∧ _calculate_fisher_rao_distance oneBatch oneBatch 0 = 0
    ∧ _calculate_kl_divergence oneBatch oneBatch 0 = 0 := by
  have h := C8_identity_pair_zero 1 1 oneBatch
    (fun _ _ => by norm_num [oneBatch]) (fun _ => by simp [oneBatch]) 0
  exact ⟨h.1, h.2.1, h.2.2.1, h.2.2.2.1, h.2.2.2.2 (fun _ => by norm_num [oneBatch])⟩

/-- C9: in a batch where exactly one sentence's token mask sums to zero, the
aggregation produces the non-finite (NaN, modelled as `none`) distribution
for that sentence only; every other sentence receives a finite distribution,
and each sentence's output depends only on that sentence's own mask row and
probability rows (no cross-contamination between rows), so the other
sentences receive exactly the distribution they would receive in any batch
agreeing with this one on their row. -/
theorem C9_zero_mask_row_isolated (b L V : ℕ)
    (probs : Fin b → Fin L → Fin V → ℝ) (mask : Fin b → Fin L → Bool) (j0 : Fin b)
    (h0 : maskSum (mask j0) = 0) (h1 : ∀ j, j ≠ j0 → maskSum (mask j) ≠ 0) :
    aggregate_distribution probs mask j0 = none
    ∧ (∀ j, j ≠ j0 → ∃ d, aggregate_distribution probs mask j = some d)
    ∧ (∀ (probs2 : Fin b → Fin L → Fin V → ℝ) (mask2 : Fin b → Fin L → Bool) (j : Fin b),
        probs2 j = probs j → mask2 j = mask j →
        aggregate_distribution probs2 mask2 j = aggregate_distribution probs mask j) := by
  refine ⟨?_, ?_, ?_⟩
  · simp [aggregate_distribution, h0]
  · intro j hj
    unfold aggregate_distribution
    rw [if_neg (h1 j hj)]
    exact ⟨_, rfl⟩
  · intro probs2 mask2 j hp hm
    simp only [aggregate_distribution, hp, hm]

/-- The per-position probability rows of a concrete two-sentence batch
(every candidate distribution is the point mass on the single vocabulary
entry). -/
noncomputable def probsTwo : Fin 2 → Fin 1 → Fin 1 → ℝ := fun _ _ _ => 1

/-- A concrete token mask whose first sentence has no true position and whose
second sentence has one. -/
def maskTwo : Fin 2 → Fin 1 → Bool := fun j _ => decide (j = 1)

/-- C9 witness: on the concrete two-sentence batch, the zero-mask sentence
aggregates to the non-finite row and the other sentence to a finite one. -/
theorem C9_zero_mask_row_isolated_witness :
    aggregate_distribution probsTwo maskTwo 0 = none
    ∧ (∃ d, aggregate_distribution probsTwo maskTwo 1 = some d) := by
  have h := C9_zero_mask_row_isolated 2 1 1 probsTwo maskTwo 0 (by decide)
    (by decide)
  exact ⟨h.1, h.2.1 1 (by decide)⟩
